import Mathlib

/-!
Verification development for the retrieval / context-assembly / citation
subsystem of the `rag-test` repository.

The Python sources embedded here are:
  * `src/retrieval/retriever.py`  (class `Retriever`: `retrieve`,
    `retrieve_with_reranking`, query expansion, similarity boosting,
    product/generation filtering, priority re-sort)
  * `src/qa/chain.py`  (class `QAChain`: `format_context`, the context
    token-budget enforcement and the citation-resolution tail of
    `answer_with_retrieved_docs`)
  * `src/index/vector_store.py`  (class `VectorStore`: `query`)

Modelling conventions:
  * Python strings are Lean `String`s; `s.lower()` is `pyLower` (ASCII
    case folding; the keyword tables and all concrete inputs used in the
    theorems are ASCII).
  * `needle in haystack` is `pyContains`.
  * `re.findall` for the three patterns the code uses (model codes,
    generation numbers, "Quelle N" citation markers) is implemented as
    explicit left-to-right non-overlapping scanners over `List Char`,
    with `\b` word boundaries read over ASCII word characters.
  * Python floats appearing in the logic (similarities, boosts, the
    3.5 chars-per-token estimate) are represented as rationals; all the
    constants involved are decimally exact, so no rounding is lost.
  * `sorted(..., key=k, reverse=True)` (Timsort, stable) is modelled by
    `List.insertionSort` with the relation `k b ≤ k a`, which is stable
    with the same tie behaviour (earlier elements first).
  * A Python call that raises is modelled with `Except PyErr`.
-/

/-- ASCII lower-casing of one character, the behaviour of Python
`str.lower()` on the ASCII range (all keyword tables in the sources and
all concrete inputs used below are ASCII). -/
def pyLowerChar (c : Char) : Char := c.toLower

/-- Python `s.lower()` (ASCII fragment). -/
def pyLower (s : String) : String := ⟨s.data.map pyLowerChar⟩

/-- Does `hay` start with `needle`? -/
def startsWithList : List Char → List Char → Bool
  | _, [] => true
  | [], _ :: _ => false
  | c :: cs, n :: ns => c == n && startsWithList cs ns

/-- Does `hay` contain `needle` as a contiguous sublist? -/
def containsList (hay needle : List Char) : Bool :=
  match hay with
  | [] => needle.isEmpty
  | _ :: rest => startsWithList hay needle || containsList rest needle

/-- Python `needle in haystack` for strings: contiguous-substring test. -/
def pyContains (haystack needle : String) : Bool :=
  containsList haystack.data needle.data

/-- Python `any(term in text for term in terms)`. -/
def containsAny (text : String) (terms : List String) : Bool :=
  terms.any (fun t => pyContains text t)

/-- Python `sep.join(parts)`. -/
def pyJoin (sep : String) : List String → String
  | [] => ""
  | [x] => x
  | x :: y :: xs => x ++ sep ++ pyJoin sep (y :: xs)

/-- Python regex `\w` over ASCII: letters, digits, underscore. -/
def isWordChar (c : Char) : Bool := c.isAlphanum || c == '_'

/-- Lowercase ASCII letter, the character class `[a-z]` (the regexes in
the sources run on lower-cased text). -/
def isLowerAZ (c : Char) : Bool := 'a' ≤ c && c ≤ 'z'

/-- Python regex `\s`: the six ASCII whitespace characters. -/
def isPySpace (c : Char) : Bool :=
  c == ' ' || c == '\t' || c == '\n' || c == '\r' || c == '\x0b' || c == '\x0c'

/-- Word boundary after a match: the remainder must not start with a
word character. -/
def boundaryAt : List Char → Bool
  | [] => true
  | c :: _ => !isWordChar c

/-- Numeric value of a digit string (Python `int(...)` on `\d+`). -/
def natOfDigits (ds : List Char) : Nat :=
  ds.foldl (fun n c => n * 10 + (c.toNat - '0'.toNat)) 0

/-- Greedy `\d+`: maximal nonempty digit run at the head of the input.
Returns the digits and the remainder. -/
def takeDigits : List Char → Option (List Char × List Char)
  | [] => none
  | c :: cs =>
    if c.isDigit then
      match takeDigits cs with
      | some (ds, rest) => some (c :: ds, rest)
      | none => some ([c], cs)
    else none

/-- Greedy `\s*`: drop leading regex whitespace. -/
def dropSpaces : List Char → List Char
  | [] => []
  | c :: cs => if isPySpace c then dropSpaces cs else c :: cs

/-- Greedy `\s+`: at least one whitespace character, then `\s*`. -/
def takeSpaces1 : List Char → Option (List Char)
  | [] => none
  | c :: cs => if isPySpace c then some (dropSpaces cs) else none

/-- One attempted match of `([a-z]\d{1,2}|[a-z]{2}\d{1,2})\b` at the head
of the input (the word boundary *before* the position is checked by the
caller).  Mirrors the regex engine: first alternative first, greedy
`\d{1,2}` with backtracking, then the trailing `\b`.  Returns the matched
model code and the remainder after it. -/
def matchModelAt (l : List Char) : Option (List Char × List Char) :=
  match l with
  | a :: b :: c :: rest =>
    if isLowerAZ a && b.isDigit then
      -- alternative `[a-z]\d{1,2}`
      if c.isDigit && boundaryAt rest then some ([a, b, c], rest)
      else if boundaryAt (c :: rest) then some ([a, b], c :: rest)
      else matchTwoLetters l
    else matchTwoLetters l
  | [a, b] =>
    if isLowerAZ a && b.isDigit then some ([a, b], []) else none
  | _ => none
where
  /-- alternative `[a-z]{2}\d{1,2}` with trailing `\b`. -/
  matchTwoLetters : List Char → Option (List Char × List Char)
  | a :: b :: c :: d :: rest =>
    if isLowerAZ a && isLowerAZ b && c.isDigit then
      if d.isDigit && boundaryAt rest then some ([a, b, c, d], rest)
      else if boundaryAt (d :: rest) then some ([a, b, c], d :: rest)
      else none
    else none
  | [a, b, c] =>
    if isLowerAZ a && isLowerAZ b && c.isDigit then some ([a, b, c], []) else none
  | _ => none

/-- Left-to-right non-overlapping scan for the model-code pattern
`\b([a-z]\d{1,2}|[a-z]{2}\d{1,2})\b` (Python `re.findall`); `prevIsWord`
tracks the `\b` condition before the current position.  Fuel is the
length of the scanned text; every step consumes at least one character. -/
def findModelsAux : Nat → Bool → List Char → List (List Char)
  | 0, _, _ => []
  | _, _, [] => []
  | fuel + 1, prevIsWord, c :: rest =>
    if prevIsWord then findModelsAux fuel (isWordChar c) rest
    else
      match matchModelAt (c :: rest) with
      | some (m, rest') => m :: findModelsAux fuel true rest'
      | none => findModelsAux fuel (isWordChar c) rest

/-- `re.findall(r"\b([a-z]\d{1,2}|[a-z]{2}\d{1,2})\b", s)` as strings. -/
def findModelCodes (s : String) : List String :=
  (findModelsAux s.data.length false s.data).map (fun m => ⟨m⟩)

/-- One attempted match of `(?:gen|generation)\s*(\d+)\b` at the head of
the input (leading `\b` checked by the caller): the `gen` branch of the
alternation is tried first, exactly as the regex engine does.  Returns
the captured digit string and the remainder after the match. -/
def matchGenAt (l : List Char) : Option (List Char × List Char) :=
  match tryLiteral ['g', 'e', 'n'] l with
  | some rest =>
    match finishGen rest with
    | some r => some r
    | none =>
      match tryLiteral ['g', 'e', 'n', 'e', 'r', 'a', 't', 'i', 'o', 'n'] l with
      | some rest2 => finishGen rest2
      | none => none
  | none => none
where
  /-- Match a literal character sequence at the head. -/
  tryLiteral : List Char → List Char → Option (List Char)
  | [], l => some l
  | _ :: _, [] => none
  | p :: ps, c :: cs => if p == c then tryLiteral ps cs else none
  /-- After the literal: `\s*` then `(\d+)` then `\b`. -/
  finishGen (rest : List Char) : Option (List Char × List Char) :=
    match takeDigits (dropSpaces rest) with
    | some (ds, rest') => if boundaryAt rest' then some (ds, rest') else none
    | none => none

/-- Left-to-right non-overlapping scan for
`\b(?:gen|generation)\s*(\d+)\b`, returning the captured digit strings. -/
def findGensAux : Nat → Bool → List Char → List (List Char)
  | 0, _, _ => []
  | _, _, [] => []
  | fuel + 1, prevIsWord, c :: rest =>
    if prevIsWord then findGensAux fuel (isWordChar c) rest
    else
      match matchGenAt (c :: rest) with
      | some (ds, rest') => ds :: findGensAux fuel true rest'
      | none => findGensAux fuel (isWordChar c) rest

/-- `re.findall(r"\b(?:gen|generation)\s*(\d+)\b", s)` as strings. -/
def findGenStrings (s : String) : List String :=
  (findGensAux s.data.length false s.data).map (fun m => ⟨m⟩)

example : findModelCodes "wieviel ram hat das thinkpad e14 gen 2?" = ["e14"] := by decide
example : findModelCodes "thinkpad e14 gen 2 ram 16gb ddr4. thinkpad l16 gen 3 ram 8gb." =
    ["e14", "l16"] := by decide
example : findGenStrings "thinkpad e14 gen 2 ram. thinkpad l16 gen 3." = ["2", "3"] := by decide
example : findGenStrings "generation 7 and gen4" = ["7", "4"] := by decide
example : findModelCodes "oxygen 5 zbook ultra 14" = [] := by decide
example : findGenStrings "oxygen 5" = [] := by decide

/-! ## Data model -/

/-- The metadata dictionary stored with each chunk in the vector store
(`doc_metadata` in `retriever.py`); `source` defaults to the empty
string, matching `metadata.get("source", "")`. -/
structure Meta where
  source : String := ""
  documentId : Option Nat := none
  pageNumber : Option Nat := none
deriving DecidableEq, Repr, Inhabited

/-- One entry of the raw result set returned by the vector store for a
query (one column of ChromaDB's `ids`/`documents`/`metadatas`/
`distances` row). -/
structure RawResult where
  id : String
  document : String
  metadata : Meta
  distance : Option ℚ
deriving DecidableEq, Repr, Inhabited

/-- A retrieved document dict as produced by `Retriever.retrieve`
(`{"id", "text", "metadata", "distance", "similarity"}`). -/
structure RDoc where
  id : String
  text : String
  metadata : Meta
  distance : Option ℚ := none
  similarity : ℚ
deriving DecidableEq, Repr, Inhabited

/-- A source dict as returned in `result["sources"]` by
`answer_with_retrieved_docs` (`chain.py:872-879` and `890-896`).  The
citation-filtered branch includes a `source_number` key, the
top-by-similarity fallback branch does not; `sourceNumber = none` models
the absent key. -/
structure CitedSource where
  chunkId : String
  documentId : Option Nat
  pageNumber : Option Nat
  similarity : ℚ
  text : String
  sourceNumber : Option Nat
deriving DecidableEq, Repr, Inhabited

/-- Python errors that the modelled fragments can raise. -/
inductive PyErr where
  | typeError (msg : String)
  | exception (msg : String)
deriving DecidableEq, Repr

/-! ## Retriever: query classification (`retriever.py:62-75`) -/

/-- `spec_keywords` (`retriever.py:64`). -/
def specKeywords : List String :=
  ["spezifikation", "specification", "specs", "technische", "hardware"]

/-- `spec_question_patterns` (`retriever.py:65-70`). -/
def specQuestionPatterns : List String :=
  ["wieviel", "wie viel", "welche", "was ist", "welcher", "welches",
   "ram", "memory", "speicher", "prozessor", "cpu", "grafik", "gpu",
   "display", "bildschirm", "akku", "battery", "gewicht", "weight",
   "abmessungen", "dimensions", "anschlüsse", "ports"]

/-- `is_spec_query` (`retriever.py:72-75`); the argument is the already
lower-cased query. -/
def isSpecQueryOf (queryLower : String) : Bool :=
  containsAny queryLower specKeywords || containsAny queryLower specQuestionPatterns

/-- Query terms marking a processor question (`retriever.py:292-296`,
identical list at `retriever.py:576-580`). -/
def processorQueryTerms : List String :=
  ["prozessor", "prozessoren", "processor", "processors", "cpu", "cpus",
   "welche prozessor", "welche processor", "prozessor-konfiguration",
   "prozessoroptionen", "prozessor-optionen"]

/-- Query terms marking a screen-to-body question (`retriever.py:299-302`,
identical list at `retriever.py:583-586`). -/
def screenToBodyQueryTerms : List String :=
  ["screen-to-body", "screen to body", "screen-to-body ratio", "screen to body ratio",
   "bezel", "display bezel", "screen bezel"]

/-- The percentage literals the heuristics look for
(`retriever.py:251,326` etc.). -/
def pctTermsFull : List String :=
  ["85%", "85.5%", "86%", "87%", "88%", "88.5%", "89%", "90%", "91%",
   "92%", "93%", "94%", "95%"]

/-- The percentage list used in the bezel boost branch
(`retriever.py:248`) — it omits `86%`. -/
def pctTermsBezel : List String :=
  ["85%", "85.5%", "87%", "88%", "88.5%", "89%", "90%", "91%",
   "92%", "93%", "94%", "95%"]

/-- Processor brand keywords (`retriever.py:233` and elsewhere). -/
def procBrandTerms : List String :=
  ["intel", "amd", "core", "ryzen", "ultra", "i3", "i5", "i7", "i9"]

/-- Processor spec/unit keywords (`retriever.py:234` and elsewhere). -/
def procModelTerms : List String :=
  ["ghz", "mhz", "cores", "kerne", "threads", "thread", "p-core", "e-core"]

/-- Processor names looked for inside GPU/graphics tables
(`retriever.py:237`). -/
def gpuProcNameTerms : List String :=
  ["u300e", "i3-1315u", "core 3 100u", "core 5 120u", "core 5 220u",
   "core 7 150u", "core 7 250u", "core ultra 5", "core ultra 7",
   "processor", "intel processor"]

/-! ## Retriever: similarity boosting (`retriever.py:224-289`)

The boost is assigned by one ordered `if/elif` chain evaluated on the
candidate's text, so at most one branch fires.  Each branch predicate is
transcribed below; `tl` is the lower-cased chunk text, raw-text tests
(`len(doc_text) > 200`, `"|" in doc_text`, `"%" in doc_text`) use the
original text. -/

/-- Branch 1 (`retriever.py:228`): substantial PERFORMANCE chunk. -/
def boostPerfLargeP (docText : String) : Bool :=
  pyContains (pyLower docText) "performance" && docText.length > 200

/-- Branch 2 (`retriever.py:232-237`): processor chunk with model info,
or GPU table containing processor names, in a substantial chunk. -/
def boostProcessorP (docText : String) : Bool :=
  let tl := pyLower docText
  (((pyContains tl "processor" || pyContains tl "cpu" || pyContains tl "prozessor") &&
      (containsAny tl procBrandTerms || containsAny tl procModelTerms)) ||
    ((pyContains tl "gpu" || pyContains tl "graphics" || pyContains tl "grafik") &&
      containsAny tl gpuProcNameTerms)) && docText.length > 200

/-- Branch 3 (`retriever.py:239`): generic technical keyword in a
substantial chunk. -/
def boostTechLargeP (docText : String) : Bool :=
  containsAny (pyLower docText)
      ["processor", "cpu", "memory", "ram", "storage", "graphics", "gpu"] &&
    docText.length > 200

/-- Branch 4 (`retriever.py:243`): explicit screen-to-body mention. -/
def boostStbExplicitP (docText : String) : Bool :=
  let tl := pyLower docText
  pyContains tl "screen-to-body" || pyContains tl "screen to body"

/-- Branch 5 (`retriever.py:246-248`): bezel keyword with a percent
signal. -/
def boostBezelP (docText : String) : Bool :=
  let tl := pyLower docText
  (pyContains tl "bezel" || pyContains tl "display bezel" || pyContains tl "screen bezel") &&
    ((pyContains tl "ratio" || pyContains tl "%") || containsAny tl pctTermsBezel)

/-- Branch 6 (`retriever.py:250-251`): display keyword plus one of the
percentage literals. -/
def boostDisplayPctP (docText : String) : Bool :=
  let tl := pyLower docText
  (pyContains tl "display" || pyContains tl "screen" || pyContains tl "bildschirm") &&
    containsAny tl pctTermsFull

/-- Branch 7 (`retriever.py:256-258`): display keyword plus brightness
units (or `300` together with a brightness word). -/
def boostDisplayBrightP (docText : String) : Bool :=
  let tl := pyLower docText
  (pyContains tl "display" || pyContains tl "screen" || pyContains tl "bildschirm") &&
    (containsAny tl ["nits", "cd/m2", "cd/m²", "brightness", "helligkeit", "luminance", "luminanz"] ||
      (pyContains tl "300" &&
        (pyContains tl "nits" || pyContains tl "brightness" || pyContains tl "helligkeit")))

/-- Branch 8 (`retriever.py:261-263`): display keyword plus resolution /
size tokens. -/
def boostDisplayResP (docText : String) : Bool :=
  let tl := pyLower docText
  (pyContains tl "display" || pyContains tl "screen" || pyContains tl "bildschirm") &&
    (containsAny tl ["resolution", "auflösung", "inch", "inches", "\"", "fhd", "uhd", "4k",
        "1920", "2560", "3840"] ||
      containsAny tl ["14", "15", "16"])

/-- Branch 9 (`retriever.py:267-268`): battery keyword plus capacity
units. -/
def boostBatteryP (docText : String) : Bool :=
  let tl := pyLower docText
  (pyContains tl "battery" || pyContains tl "akku" || pyContains tl "batterie" ||
      pyContains tl "power adapter" || pyContains tl "power supply") &&
    containsAny tl ["w", "wh", "watt", "capacity", "kapazität", "life", "laufzeit",
      "mah", "mah", "hours", "stunden"]

/-- Branch 10 (`retriever.py:272-274`): dimensions/weight keyword plus
measurements. -/
def boostDimWeightP (docText : String) : Bool :=
  let tl := pyLower docText
  (pyContains tl "dimensions" || pyContains tl "abmessungen" || pyContains tl "size" ||
      pyContains tl "weight" || pyContains tl "gewicht") &&
    (containsAny tl ["mm", "inches", "kg", "lbs", "pounds", "g", "x", "×", "cm"] ||
      containsAny tl ["width", "height", "depth", "breite", "höhe", "tiefe", "length", "länge"])

/-- Branch 11 (`retriever.py:277`): bare display keyword. -/
def boostDisplayBareP (docText : String) : Bool :=
  let tl := pyLower docText
  pyContains tl "display" || pyContains tl "screen" || pyContains tl "bildschirm"

/-- Branch 12 (`retriever.py:279`): dimensions, or weight with units. -/
def boostDimOrWeightP (docText : String) : Bool :=
  let tl := pyLower docText
  pyContains tl "dimensions" ||
    (pyContains tl "weight" && containsAny tl ["kg", "lbs", "mm", "inches"])

/-- Branch 13 (`retriever.py:281`): battery, or power adapter with
units. -/
def boostBatteryBareP (docText : String) : Bool :=
  let tl := pyLower docText
  pyContains tl "battery" || pyContains tl "akku" ||
    (pyContains tl "power adapter" && (pyContains tl "w" || pyContains tl "wh"))

/-- Branch 14 (`retriever.py:283`): PERFORMANCE in a small chunk. -/
def boostPerfSmallP (docText : String) : Bool :=
  pyContains (pyLower docText) "performance"

/-- Branch 15 (`retriever.py:285`): any technical keyword at all. -/
def boostTechAnyP (docText : String) : Bool :=
  containsAny (pyLower docText)
    ["processor", "cpu", "memory", "ram", "storage", "graphics", "gpu",
     "display", "battery", "dimensions", "weight"]

/-- `similarity_boost` for a spec query: the ordered `if/elif` chain of
`retriever.py:228-286`, returning the boost of the first branch whose
predicate holds (0.0 when none does). -/
def similarityBoost (docText : String) : ℚ :=
  if boostPerfLargeP docText then 25/100
  else if boostProcessorP docText then 24/100
  else if boostTechLargeP docText then 20/100
  else if boostStbExplicitP docText then 45/100
  else if boostBezelP docText then 40/100
  else if boostDisplayPctP docText then 38/100
  else if boostDisplayBrightP docText then 35/100
  else if boostDisplayResP docText then 30/100
  else if boostBatteryP docText then 28/100
  else if boostDimWeightP docText then 26/100
  else if boostDisplayBareP docText then 19/100
  else if boostDimOrWeightP docText then 18/100
  else if boostBatteryBareP docText then 18/100
  else if boostPerfSmallP docText then 15/100
  else if boostTechAnyP docText then 10/100
  else 0

/-- The boosted similarity of a spec-query candidate:
`similarity = min(1.0, similarity + similarity_boost)`
(`retriever.py:289`). -/
def boostedSimilarity (sim : ℚ) (docText : String) : ℚ :=
  min 1 (sim + similarityBoost docText)

/-- The boost chain as an ordered rule table, in the evaluation order of
the source's `if/elif` chain. -/
def boostRules : List ((String → Bool) × ℚ) :=
  [(boostPerfLargeP, 25/100), (boostProcessorP, 24/100), (boostTechLargeP, 20/100),
   (boostStbExplicitP, 45/100), (boostBezelP, 40/100), (boostDisplayPctP, 38/100),
   (boostDisplayBrightP, 35/100), (boostDisplayResP, 30/100), (boostBatteryP, 28/100),
   (boostDimWeightP, 26/100), (boostDisplayBareP, 19/100), (boostDimOrWeightP, 18/100),
   (boostBatteryBareP, 18/100), (boostPerfSmallP, 15/100), (boostTechAnyP, 10/100)]

/-- First-match-wins evaluation of an ordered rule table: the boost of
the first rule whose predicate accepts the text, 0 when none does. -/
def firstMatchBoost : List ((String → Bool) × ℚ) → String → ℚ
  | [], _ => 0
  | (p, b) :: rules, t => if p t then b else firstMatchBoost rules t

/-! ## Retriever: target product / generation extraction
(`retriever.py:181-206`) -/

/-- `max(model_matches, key=len)`: Python `max` keeps the first element
among those of maximal length. -/
def maxByLen (x : String) (xs : List String) : String :=
  xs.foldl (fun best m => if m.length > best.length then m else best) x

/-- `target_product` extracted from the query
(`retriever.py:186-206`): the longest model-code match of
`\b([a-z]\d{1,2}|[a-z]{2}\d{1,2})\b` on the lower-cased query, overridden
by the literal multi-word ZBook phrases. -/
def targetProductOf (query : String) : Option String :=
  let queryLower := pyLower query
  let fromModels :=
    match findModelCodes queryLower with
    | [] => none
    | m :: ms => some (maxByLen m ms)
  if pyContains queryLower "zbook ultra 14" then some "zbook ultra 14"
  else if pyContains queryLower "zbook 8 14" then some "zbook 8 14"
  else if pyContains queryLower "zbook 8 16" then some "zbook 8 16"
  else fromModels

/-- `target_gen` extracted from the query (`retriever.py:190-198`): set
only when a model code was found, to `int` of the first
`\b(?:gen|generation)\s*(\d+)\b` match. -/
def targetGenOf (query : String) : Option Nat :=
  let queryLower := pyLower query
  match findModelCodes queryLower with
  | [] => none
  | _ :: _ =>
    match findGenStrings queryLower with
    | [] => none
    | g :: _ => some (natOfDigits g.data)

/-! ## Retriever: product/generation filtering (`retriever.py:291-476`) -/

/-- `is_processor_chunk` (`retriever.py:305-312`). -/
def isProcessorChunk (docText : String) : Bool :=
  let tl := pyLower docText
  ((pyContains tl "processor" || pyContains tl "prozessor" || pyContains tl "cpu") &&
      (containsAny tl procBrandTerms || containsAny tl procModelTerms)) ||
    ((pyContains docText "|" || pyContains docText "---" || pyContains tl "table") &&
      containsAny tl ["processor", "cpu", "core", "ultra", "intel", "amd"])

/-- `is_display_chunk` (`retriever.py:319-336`); the first argument says
whether the query is a screen-to-body query. -/
def isDisplayChunk (stbQuery : Bool) (docText : String) : Bool :=
  let tl := pyLower docText
  if stbQuery then
    (pyContains tl "screen-to-body" || pyContains tl "screen to body") ||
      ((pyContains tl "display" || pyContains tl "screen" || pyContains tl "bildschirm") &&
        (pyContains docText "%" || containsAny tl pctTermsFull)) ||
      (pyContains tl "display" || pyContains tl "screen" || pyContains tl "bildschirm")
  else
    (pyContains tl "display" || pyContains tl "screen" || pyContains tl "bildschirm") &&
      ((pyContains tl "screen-to-body" || pyContains tl "screen to body") ||
        pyContains docText "%" || containsAny tl pctTermsFull)

/-- `other_models` (`retriever.py:397-407`): every model code in the
chunk text other than the target, each paired with the *first* generation
number found anywhere in the chunk text (the code reruns the generation
regex over the whole text for each model, so every foreign model gets the
same, first, generation string). -/
def otherModels (textLower : String) (targetNormalized : String) : List (String × String) :=
  (findModelCodes textLower).filterMap fun m =>
    if m ≠ targetNormalized then
      match findGenStrings textLower with
      | [] => none
      | g :: _ => some (m, g)
    else none

/-- `has_conflicting_model` (`retriever.py:409-413`): some foreign model
code occurs in the chunk and the first generation string of the chunk
differs (as a string) from `str(target_gen)`. -/
def hasConflictingModel (textLower : String) (targetNormalized : String)
    (targetGen : Nat) : Bool :=
  (otherModels textLower targetNormalized).any fun mg =>
    mg.1 != targetNormalized && mg.2 != Nat.repr targetGen

/-- `gen_in_text` (`retriever.py:353-360`). -/
def genInText (textLower : String) (g : Nat) : Bool :=
  pyContains textLower ("gen " ++ Nat.repr g) ||
    pyContains textLower ("gen" ++ Nat.repr g) ||
    pyContains textLower ("generation " ++ Nat.repr g) ||
    pyContains textLower (Nat.repr g ++ "th generation") ||
    pyContains textLower (Nat.repr g ++ "th gen")

/-- `doc_source` (`retriever.py:362-388`): the metadata `source` field,
lower-cased, else the owning document's filename looked up by
`document_id` (memoised in the code; semantically a pure lookup modelled
by `fileNameOf`, which returns `""` for unknown ids, as the cache stores
`""` on a failed lookup).  `metadata.get("document_id")` is a Python
truthiness test, so a `document_id` of `0` behaves like an absent one. -/
def docSourceOf (fileNameOf : Nat → String) (m : Meta) : String :=
  let ms := pyLower m.source
  if ms ≠ "" then ms
  else
    match m.documentId with
    | some did => if did ≠ 0 then pyLower (fileNameOf did) else ""
    | none => ""

/-- The per-candidate body of the retrieval loop
(`retriever.py:208-484`): threshold check, spec-query boosting, and the
product/generation filter; returns the retrieved-document dict or `none`
when the candidate is skipped. -/
def processResult (queryLower : String) (isSpec : Bool) (targetProduct : Option String)
    (targetGen : Option Nat) (fileNameOf : Nat → String) (r : RawResult) : Option RDoc :=
  match r.distance with
  | none => none
  | some dist =>
    let sim0 : ℚ := 1 - dist
    if sim0 ≥ -100 then
      let docText := r.document
      let tl := pyLower docText
      let sim := if isSpec then boostedSimilarity sim0 docText else sim0
      let isProcQ := containsAny queryLower processorQueryTerms
      let isStbQ := containsAny queryLower screenToBodyQueryTerms
      let procChunk := isProcessorChunk docText
      let dispChunk := isDisplayChunk isStbQ docText
      match targetProduct with
      | none => some ⟨r.id, docText, r.metadata, r.distance, sim⟩
      | some tp =>
        let tpn := pyLower tp
        let hasProductInText :=
          pyContains tl tpn ||
            ((pyContains queryLower "thinkpad" || pyContains queryLower "think pad") &&
              pyContains tl ("thinkpad " ++ tpn))
        match targetGen with
        | some tg =>
          let docSource := docSourceOf fileNameOf r.metadata
          let filenameHasModel := if docSource ≠ "" then pyContains docSource tpn else false
          let filenameHasGen :=
            if docSource ≠ "" then
              pyContains docSource ("gen_" ++ Nat.repr tg) ||
                pyContains docSource ("gen" ++ Nat.repr tg) ||
                pyContains docSource ("generation_" ++ Nat.repr tg)
            else false
          let others := otherModels tl tpn
          if hasConflictingModel tl tpn tg then none
          else
            let gInText := genInText tl tg
            let productInChunk :=
              if isProcQ && procChunk then
                (hasProductInText && gInText) ||
                  (hasProductInText && filenameHasModel && filenameHasGen) ||
                  (hasProductInText && others.length == 0) ||
                  (filenameHasModel && filenameHasGen && others.length == 0) ||
                  (filenameHasModel && filenameHasGen && procChunk && others.length == 0)
              else if isStbQ then
                (filenameHasModel && filenameHasGen) ||
                  (hasProductInText && gInText) ||
                  (hasProductInText && filenameHasModel && filenameHasGen) ||
                  (hasProductInText && others.length == 0) ||
                  (filenameHasModel && filenameHasGen && dispChunk) ||
                  (filenameHasModel && filenameHasGen && others.length == 0)
              else
                (hasProductInText && gInText) ||
                  (hasProductInText && filenameHasModel && filenameHasGen) ||
                  (hasProductInText && others.length == 0) ||
                  (filenameHasModel && filenameHasGen && others.length == 0)
            if productInChunk then some ⟨r.id, docText, r.metadata, r.distance, sim⟩ else none
        | none =>
          if hasProductInText then some ⟨r.id, docText, r.metadata, r.distance, sim⟩ else none
    else none

/-! ## Retriever: priority re-sort (`retriever.py:488-538`) -/

/-- `sort_key` (`retriever.py:497-536`): a coarse priority bucket from
the chunk text plus the (boosted) similarity. -/
def sortPriority (isStbQ : Bool) (d : RDoc) : ℚ :=
  let tl := pyLower d.text
  if isStbQ && (pyContains tl "screen-to-body" || pyContains tl "screen to body") then 1000
  else if isStbQ && (pyContains tl "display" || pyContains tl "screen") &&
      pyContains d.text "%" then 500
  else if pyContains tl "performance" && d.text.length > 200 then 1000
  else if (pyContains tl "processor" || pyContains tl "cpu" || pyContains tl "prozessor") &&
      (containsAny tl procBrandTerms || containsAny tl procModelTerms) then 950
  else if (pyContains tl "battery" || pyContains tl "akku") &&
      containsAny tl ["w", "wh", "capacity"] then 900
  else if (pyContains tl "weight" || pyContains tl "gewicht") &&
      containsAny tl ["kg", "lbs", "g"] then 850
  else if (pyContains tl "dimensions" || pyContains tl "abmessungen") &&
      containsAny tl ["mm", "inches", "cm"] then 800
  else if (pyContains tl "display" || pyContains tl "screen") &&
      (containsAny tl ["nits", "brightness", "helligkeit", "luminance"] ||
        (pyContains tl "300" && (pyContains tl "nits" || pyContains tl "brightness"))) then 850
  else if (pyContains tl "display" || pyContains tl "screen") &&
      containsAny tl ["inch", "resolution"] then 750
  else if containsAny tl ["processor", "cpu", "memory", "ram", "storage"] then 700
  else 0

/-- The combined sort score `priority + similarity`. -/
def sortKeyOf (isStbQ : Bool) (d : RDoc) : ℚ := sortPriority isStbQ d + d.similarity

/-- The post-query body of `Retriever.retrieve`
(`retriever.py:176-543`): format, boost and filter every raw result,
then, for spec queries, re-sort by descending `sort_key`
(`sorted`/`list.sort` is stable, modelled by a stable insertion sort). -/
def retrieveBody (query : String) (results : List RawResult)
    (fileNameOf : Nat → String) : List RDoc :=
  let queryLower := pyLower query
  let isSpec := isSpecQueryOf queryLower
  let tp := targetProductOf query
  let tg := targetGenOf query
  let docs := results.filterMap (processResult queryLower isSpec tp tg fileNameOf)
  if isSpec then
    let isStbQ := containsAny queryLower screenToBodyQueryTerms
    docs.insertionSort (fun a b => sortKeyOf isStbQ b ≤ sortKeyOf isStbQ a)
  else docs

/-! ## VectorStore.query and the full `retrieve` call
(`vector_store.py:63-89`, `retriever.py:160-178`) -/

/-- One stored entry of the vector index, with the cosine distance the
index computes for the current query embedding (distances are inputs of
the model: the embedding itself is an external service). -/
structure StoreEntry where
  id : String
  document : String
  metadata : Meta
  distance : ℚ
deriving DecidableEq, Repr

/-- `VectorStore.query` (`vector_store.py:63-89`).  The method's
signature requires a `user_id` argument before the query embeddings;
`userId = none` models a call that omits it, which CPython rejects with
a `TypeError` before the body runs.  A well-formed call returns the
`n_results` nearest stored entries by ascending distance. -/
def vectorStoreQuery (store : List StoreEntry) (userId : Option Nat)
    (nResults : Nat) : Except PyErr (List RawResult) :=
  match userId with
  | none =>
    .error (.typeError
      "VectorStore.query() missing 1 required positional argument: 'user_id'")
  | some _ =>
    .ok (((store.insertionSort (fun a b => a.distance ≤ b.distance)).take nResults).map
      fun e => ⟨e.id, e.document, e.metadata, some e.distance⟩)

/-- `query_n_results` (`retriever.py:164`): spec queries over-fetch by a
factor of 8. -/
def queryNResults (query : String) (nResults : Nat) : Nat :=
  if isSpecQueryOf (pyLower query) then nResults * 8 else nResults

/-- `Retriever.retrieve` (`retriever.py:49-543`): embed the (expanded)
query, query the vector store, then boost/filter/sort.  The call at
`retriever.py:168` passes `query_embeddings`, `n_results` and `where`
but *not* `user_id`, which `VectorStore.query` requires — modelled by the
`none` argument. -/
def retrieve (store : List StoreEntry) (query : String) (nResults : Nat)
    (fileNameOf : Nat → String) : Except PyErr (List RDoc) :=
  match vectorStoreQuery store none (queryNResults query nResults) with
  | .error e => .error e
  | .ok results => .ok (retrieveBody query results fileNameOf)

/-! ## Retriever: query expansion (`retriever.py:77-156`) -/

/-- `product_keywords` (`retriever.py:78-100`): brand keyword, model
codes (de-duplicated, first occurrence kept), and for each generation
match both a `gen N` and a `generation N` keyword. -/
def productKeywordsOf (queryLower : String) : List String :=
  let brands :=
    if pyContains queryLower "thinkpad" || pyContains queryLower "think pad" then ["thinkpad"]
    else if pyContains queryLower "zbook" then ["zbook"]
    else if pyContains queryLower "ideapad" then ["ideapad"]
    else []
  let withModels := (findModelCodes queryLower).foldl
    (fun acc m => if m ∈ acc then acc else acc ++ [m]) brands
  (findGenStrings queryLower).foldl
    (fun acc g => acc ++ ["gen " ++ g, "generation " ++ g]) withModels

/-- `additional_keywords` (`retriever.py:109-137`): the spec-subtype
keyword block, chosen by one ordered `if/elif` chain over the query. -/
def additionalKeywordsOf (queryLower : String) : String :=
  if containsAny queryLower ["helligkeit", "brightness", "nits", "luminance", "luminanz"] then
    "display brightness Helligkeit nits cd/m2 cd/m² luminance luminanz screen display specifications 300 nits typical brightness"
  else if containsAny queryLower ["ram", "memory", "speicher", "arbeitsspeicher"] then
    "RAM memory DDR4 DDR5 DDR3 GB gigabytes 16GB 32GB 64GB 8GB memory specifications"
  else if containsAny queryLower ["gewicht", "weight", "schwer", "leicht", "kg", "lbs", "gramm"] then
    "weight Weight Gewicht kg lbs pounds kilogram starting at mechanical dimensions size mass specifications"
  else if containsAny queryLower
      ["abmessung", "dimension", "größe", "maße", "breite", "höhe", "tiefe"] then
    "dimensions Dimensions Abmessungen WxDxH width height depth mm inches mechanical size specifications"
  else if containsAny queryLower
      ["screen-to-body", "screen to body", "screen-to-body ratio", "screen to body ratio",
       "bezel", "display bezel", "screen bezel", "ratio"] then
    "Screen-to-Body Ratio Screen to Body Ratio screen-to-body ratio screen to body ratio bezel display bezel screen bezel ratio percentage % 85% 85.5% 86% 87% 88% 88.5% 89% 90% 91% 92% 93% 94% 95% display Display screen Screen panel Panel specifications specifications table Table WUXGA FHD resolution brightness nits"
  else if containsAny queryLower
      ["display", "bildschirm", "screen", "monitor", "auflösung", "resolution"] then
    "display Display screen panel IPS LCD OLED FHD UHD resolution inch inches nits brightness specifications"
  else if containsAny queryLower ["akku", "battery", "batterie", "laufzeit", "wh", "kapazität"] then
    "battery Battery Akku Wh capacity power cells life runtime specifications"
  else
    "processor CPU Prozessor cores Kerne threads Threads frequency Taktfrequenz cache Intel AMD Core Ultra Ryzen i3 i5 i7 i9 GHz MHz memory RAM DDR4 DDR5 storage SSD HDD graphics GPU display screen resolution brightness nits cd/m2 luminance Helligkeit battery capacity power adapter dimensions weight size ports connectivity USB Thunderbolt HDMI"

/-- `generation_keywords` (`retriever.py:140-145`): built from the first
generation match, with the digit string interpolated verbatim. -/
def generationKeywordsOf (queryLower : String) : String :=
  match findGenStrings queryLower with
  | [] => ""
  | g :: _ => "Gen " ++ g ++ " Generation " ++ g ++ " " ++ g ++ "th generation"

/-- `performance_keywords` (`retriever.py:151`). -/
def performanceKeywords : String :=
  "PERFORMANCE PERFORMANCE section PERFORMANCE specifications technical specifications processor CPU Prozessor Intel AMD Core Ultra Ryzen i3 i5 i7 i9 i11 cores Kerne threads Threads frequency Taktfrequenz GHz MHz cache memory RAM DDR4 DDR5 16GB 32GB 64GB storage SSD HDD graphics GPU display screen resolution brightness nits cd/m2 luminance Helligkeit panel IPS LCD OLED battery akku batterie power adapter W Wh capacity life dimensions abmessungen weight gewicht size width height depth mm inches kg lbs ports connectivity"

/-- The text handed to the embedder (`retriever.py:102-158`): for spec
queries the expanded string — the query, the product emphasis, the
additional keywords, the generation keywords and the performance
keywords, space-separated — where the product emphasis is
`" ".join(product_keywords) * 2` (the joined string concatenated with
itself); for other queries the raw query. -/
def queryEmbedText (query : String) : String :=
  let queryLower := pyLower query
  if isSpecQueryOf queryLower then
    let productKeywords := productKeywordsOf queryLower
    let joined := pyJoin " " productKeywords
    let productEmphasis := if productKeywords.isEmpty then "" else joined ++ joined
    query ++ " " ++ productEmphasis ++ " " ++ additionalKeywordsOf queryLower ++ " " ++
      generationKeywordsOf queryLower ++ " " ++ performanceKeywords
  else query

/-! ## Retriever: reranking fallback (`retriever.py:545-625`) -/

/-- `target_k` in `retrieve_with_reranking` (`retriever.py:557-601`):
the requested count (`n_results or self.rerank_top_k` — a Python
truthiness test, so an explicit `n_results=0` also falls back to
`rerank_top_k`), raised to at least 50 for processor queries and to at
least 40 for screen-to-body queries. -/
def rerankTargetK (query : String) (nResults : Option Nat) (rerankTopK : Nat) : Nat :=
  let targetK :=
    match nResults with
    | none => rerankTopK
    | some 0 => rerankTopK
    | some n => n
  let queryLower := pyLower query
  if containsAny queryLower processorQueryTerms then max targetK 50
  else if containsAny queryLower screenToBodyQueryTerms then max targetK 40
  else targetK

/-- A fixed fallback document for the (unreachable, range-guarded)
default of positional indexing below. -/
def emptyRDoc : RDoc := ⟨"", "", {}, none, 0⟩

/-- The reranking tail of `retrieve_with_reranking`
(`retriever.py:610-625`), given the already-retrieved candidates: skip
reranking when disabled or no reranker is supplied; otherwise apply the
reranker's index permutation, and on *any* exception from the `try`
block (including an out-of-range index) fall back to the un-reranked
top `target_k` (`retriever.py:621-623`).  The reranker call itself is an
external service, modelled by its outcome `rerankOutcome`. -/
def rerankTail (useReranking : Bool) (hasReranker : Bool)
    (rerankOutcome : Except PyErr (List Nat)) (retrieved : List RDoc)
    (targetK : Nat) : List RDoc :=
  if !useReranking || !hasReranker then retrieved.take targetK
  else if retrieved.length > 0 then
    match rerankOutcome with
    | .ok idxs =>
      if idxs.all (fun i => i < retrieved.length) then
        idxs.map (fun i => retrieved.getD i emptyRDoc)
      else retrieved.take targetK
    | .error _ => retrieved.take targetK
  else retrieved

/-! ## QAChain: context rendering and the token budget
(`chain.py:144-170`, `chain.py:737-742`, `chain.py:809-835`) -/

/-- `enumerate(l, n)`. -/
def enumFromN : Nat → List α → List (Nat × α)
  | _, [] => []
  | n, a :: l => (n, a) :: enumFromN (n + 1) l

/-- `format_context(docs, preserve_order=True)` (`chain.py:144-170`):
each document is rendered as `[Quelle i - chunk_id]:\n{text}\n` with the
1-based position `i`, and the blocks are joined with `\n---\n`. -/
def formatContext (docs : List RDoc) : String :=
  pyJoin "\n---\n" ((enumFromN 1 docs).map fun p =>
    "[Quelle " ++ Nat.repr p.1 ++ " - " ++ p.2.id ++ "]:\n" ++ p.2.text ++ "\n")

/-- `estimated_tokens = len(context) / 3.5` (`chain.py:811`). -/
def estimatedTokens (context : String) : ℚ := (context.length : ℚ) / (7 / 2)

/-- The context-size safety check of `answer_with_retrieved_docs`
(`chain.py:804-835`): render the ordered documents, and if the estimated
token count exceeds `MAX_CONTEXT_TOKENS` (80000 in eval mode, 100000
otherwise) and the raw text sizes exceed the corresponding character
target, keep only the first `max(10, min(int(target_chars /
avg_chunk_size), MAX_CHUNKS))` whole documents and re-render
(`MAX_CHUNKS` is 30 in eval mode, 50 otherwise, `chain.py:742`).
Returns the rendered context and the (possibly truncated) ordered
document list. -/
def assembleContext (evalMode : Bool) (orderedDocs : List RDoc) : String × List RDoc :=
  let context := formatContext orderedDocs
  let maxContextTokens : ℚ := if evalMode then 80000 else 100000
  if estimatedTokens context > maxContextTokens then
    let maxChunks : Nat := if evalMode then 30 else 50
    let targetChars : ℚ := maxContextTokens * (7 / 2)
    let currentChars : ℚ := (orderedDocs.map fun d => (d.text.length : ℚ)).sum
    if currentChars > targetChars then
      let avgChunkSize : ℚ :=
        if orderedDocs.length ≠ 0 then currentChars / (orderedDocs.length : ℚ) else 0
      let maxChunksBySize : Nat :=
        if avgChunkSize > 0 then (⌊targetChars / avgChunkSize⌋).toNat else maxChunks
      let maxChunksBySize := max 10 (min maxChunksBySize maxChunks)
      if orderedDocs.length > maxChunksBySize then
        let reduced := orderedDocs.take maxChunksBySize
        (formatContext reduced, reduced)
      else (context, orderedDocs)
    else (context, orderedDocs)
  else (context, orderedDocs)

/-! ## QAChain: citation parsing (`chain.py:846-861`)

`re.findall(r'(?:\[)?Quelle\s+(\d+)(?:\])?', answer, re.IGNORECASE)` and
`re.findall(r'Quelle\s+(\d+)\s*-\s*(\d+)', answer, re.IGNORECASE)`,
left-to-right and non-overlapping.  Neither pattern uses word
boundaries, so no boundary state is tracked. -/

/-- Case-insensitive literal match of `quelle` at the head. -/
def matchQuelleLiteral : List Char → Option (List Char)
  | q :: u :: e1 :: l1 :: l2 :: e2 :: rest =>
    if pyLowerChar q == 'q' && pyLowerChar u == 'u' && pyLowerChar e1 == 'e' &&
        pyLowerChar l1 == 'l' && pyLowerChar l2 == 'l' && pyLowerChar e2 == 'e' then
      some rest
    else none
  | _ => none

/-- One attempted match of `(?:\[)?Quelle\s+(\d+)(?:\])?` at the head,
returning the referenced number and the remainder. -/
def matchSingleCitationAt (l : List Char) : Option (Nat × List Char) :=
  let l1 := match l with
    | '[' :: rest => rest
    | _ => l
  match matchQuelleLiteral l1 with
  | none => none
  | some afterLit =>
    match takeSpaces1 afterLit with
    | none => none
    | some afterWs =>
      match takeDigits afterWs with
      | none => none
      | some (ds, rest) =>
        let rest' := match rest with
          | ']' :: r => r
          | _ => rest
        some (natOfDigits ds, rest')

/-- One attempted match of `Quelle\s+(\d+)\s*-\s*(\d+)` at the head,
returning the two endpoints and the remainder. -/
def matchRangeCitationAt (l : List Char) : Option (Nat × Nat × List Char) :=
  match matchQuelleLiteral l with
  | none => none
  | some afterLit =>
    match takeSpaces1 afterLit with
    | none => none
    | some afterWs =>
      match takeDigits afterWs with
      | none => none
      | some (ds1, rest1) =>
        match dropSpaces rest1 with
        | '-' :: rest2 =>
          match takeDigits (dropSpaces rest2) with
          | none => none
          | some (ds2, rest3) => some (natOfDigits ds1, natOfDigits ds2, rest3)
        | _ => none

/-- Non-overlapping scan with the single-citation pattern. -/
def scanSingleCitations : Nat → List Char → List Nat
  | 0, _ => []
  | _, [] => []
  | fuel + 1, c :: rest =>
    match matchSingleCitationAt (c :: rest) with
    | some (n, rest') => n :: scanSingleCitations fuel rest'
    | none => scanSingleCitations fuel rest

/-- Non-overlapping scan with the range pattern. -/
def scanRangeCitations : Nat → List Char → List (Nat × Nat)
  | 0, _ => []
  | _, [] => []
  | fuel + 1, c :: rest =>
    match matchRangeCitationAt (c :: rest) with
    | some (a, b, rest') => (a, b) :: scanRangeCitations fuel rest'
    | none => scanRangeCitations fuel rest

/-- The `source_numbers` set (`chain.py:848-861`): all single citation
numbers plus, for every `Quelle a-b` range, the numbers `a..b`
(`range(start, end + 1)`).  Represented as a list whose membership is
the set membership the code tests with `in`. -/
def sourceNumbers (answer : String) : List Nat :=
  scanSingleCitations answer.data.length answer.data ++
    (scanRangeCitations answer.data.length answer.data).flatMap
      fun ab => List.range' ab.1 (ab.2 + 1 - ab.1)

example : sourceNumbers "Die Werte stammen aus Quelle 2 und Quelle 4." = [2, 4] := by decide
example : sourceNumbers "Siehe [Quelle 3] und Quelle 6-8." = [3, 6, 6, 7, 8] := by decide
example : sourceNumbers "Keine Quellenangabe." = [] := by decide

/-! ## QAChain: citation resolution (`chain.py:846-898`) -/

/-- A filtered source entry (`chain.py:872-879`), carrying its original
1-based source number. -/
def mkCited (i : Nat) (d : RDoc) : CitedSource :=
  ⟨d.id, d.metadata.documentId, d.metadata.pageNumber, d.similarity, d.text, some i⟩

/-- A fallback source entry (`chain.py:890-896`); no `source_number`
key. -/
def mkFallback (d : RDoc) : CitedSource :=
  ⟨d.id, d.metadata.documentId, d.metadata.pageNumber, d.similarity, d.text, none⟩

/-- The descending-similarity order used by the fallback
(`sorted(ordered_docs, key=lambda x: x.get("similarity", 0.0),
reverse=True)`, `chain.py:887`). -/
def simDescRel (a b : RDoc) : Prop := b.similarity ≤ a.similarity

instance : DecidableRel simDescRel := fun a b => Rat.instDecidableLe b.similarity a.similarity

instance : IsTotal RDoc simDescRel := ⟨fun a b => le_total b.similarity a.similarity⟩

instance : IsTrans RDoc simDescRel := ⟨fun _ _ _ h1 h2 => le_trans h2 h1⟩

/-- The source-attribution tail of `answer_with_retrieved_docs`
(`chain.py:846-898`): parse the answer's citation markers; if any are
present keep exactly the documents whose 1-based position is referenced
(preserving order and position numbers), otherwise return the top 10
documents by descending similarity (stable sort). -/
def resolveSources (answer : String) (orderedDocs : List RDoc) : List CitedSource :=
  let nums := sourceNumbers answer
  if nums.isEmpty then
    ((orderedDocs.insertionSort simDescRel).take 10).map mkFallback
  else
    (enumFromN 1 orderedDocs).filterMap fun p =>
      if p.1 ∈ nums then some (mkCited p.1 p.2) else none

/-- The response shape produced by the QA chain. -/
structure QAResult where
  answer : String
  sources : List CitedSource
deriving DecidableEq, Repr

/-- The end of `answer_with_retrieved_docs` (`chain.py:836-904`): the
generated answer text (produced by the external LLM call) together with
the resolved sources. -/
def answerStage (answer : String) (orderedDocs : List RDoc) : QAResult :=
  ⟨answer, resolveSources answer orderedDocs⟩

/-! ## Theorems -/

/-- Claim C4: for every spec-question candidate the similarity boost is
assigned by first-match-wins evaluation of the fixed ordered rule table
(`retriever.py:228-286`) — at most one boost value, the one of the first
matching pattern, never a sum of several matching boosts — and the
adjusted similarity `min(1.0, similarity + boost)` never exceeds 1.0. -/
theorem boost_first_match_wins_and_clamped (sim : ℚ) (docText : String) :
    boostedSimilarity sim docText ≤ 1 ∧
      similarityBoost docText = firstMatchBoost boostRules docText :=
  ⟨min_le_left _ _, rfl⟩

/-- Claim C7: query expansion is a pure function of the raw query string
(and the fixed keyword tables baked into `queryEmbedText`): byte-identical
query inputs produce byte-identical embedder input text
(`retriever.py:62-158`). -/
theorem expansion_deterministic (q1 q2 : String) (h : q1.data = q2.data) :
    (queryEmbedText q1).data = (queryEmbedText q2).data := by
  have : q1 = q2 := by
    cases q1
    cases q2
    exact congrArg String.mk h
  rw [this]

/-- Witness for C7 at a concrete query. -/
theorem expansion_deterministic_witness :
    ("Wieviel RAM hat das Thinkpad E14 Gen 2?" : String).data =
        ("Wieviel RAM hat das Thinkpad E14 Gen 2?" : String).data ∧
      (queryEmbedText "Wieviel RAM hat das Thinkpad E14 Gen 2?").data =
        (queryEmbedText "Wieviel RAM hat das Thinkpad E14 Gen 2?").data :=
  ⟨rfl, expansion_deterministic "Wieviel RAM hat das Thinkpad E14 Gen 2?"
    "Wieviel RAM hat das Thinkpad E14 Gen 2?" rfl⟩

/-- Claim C9: if the reranker raises during `retrieve_with_reranking`,
the query does not fail: the result is the un-reranked retrieved list
truncated to the top `target_k` candidates, in their pre-rerank order
(`retriever.py:610-625`). -/
theorem rerank_error_degrades_gracefully (query : String) (nResults : Option Nat)
    (rerankTopK : Nat) (e : PyErr) (retrieved : List RDoc) :
    rerankTail true true (.error e) retrieved (rerankTargetK query nResults rerankTopK) =
      retrieved.take (rerankTargetK query nResults rerankTopK) := by
  unfold rerankTail
  cases retrieved with
  | nil => simp
  | cons a l => simp

/-- Claim C6 (code bug): `Retriever.retrieve` never reaches the
empty-index branch — the call at `retriever.py:168` omits the `user_id`
argument that `VectorStore.query` (`vector_store.py:63-69`) requires, so
every call, in particular any query against an empty index, raises a
`TypeError` instead of returning `[]`. -/
theorem retrieve_on_empty_index_raises (query : String) (nResults : Nat)
    (fileNameOf : Nat → String) :
    retrieve [] query nResults fileNameOf =
      .error (.typeError
        "VectorStore.query() missing 1 required positional argument: 'user_id'") := rfl

/-! ## Claim C3: the context token budget -/

/-- A 400000-character chunk text used to exercise the budget check. -/
def bigA : String := ⟨List.replicate 400000 'a'⟩

/-- A single oversized retrieved document. -/
def bigDoc : RDoc := ⟨"c1", bigA, {}, none, 1/2⟩

/-- Length of the rendered context for the single oversized document. -/
theorem big_context_length : (formatContext [bigDoc]).length = 400018 := by
  have hA : bigA.length = 400000 := List.length_replicate 400000 'a'
  simp only [formatContext, enumFromN, List.map, pyJoin]
  simp only [show bigDoc.id = "c1" from rfl, show bigDoc.text = bigA from rfl]
  simp only [String.length_append, hA]
  norm_num [show ("[Quelle " : String).length = 8 from rfl,
    show (Nat.repr 1).length = 1 from rfl, show (" - " : String).length = 3 from rfl,
    show ("c1" : String).length = 2 from rfl, show ("]:\n" : String).length = 3 from rfl,
    show ("\n" : String).length = 1 from rfl]

/-- Counterexample to claim C3: in eval mode (ceiling 80000 tokens) a
single 400000-character chunk renders to an estimated 800036/7 ≈ 114291
tokens, yet the size-based cut keeps `max(10, min(int(target/avg), 30))
= 10` chunks, `1 > 10` fails, and the oversized context is returned
unchanged — its estimate exceeds the ceiling. -/
theorem context_budget_counterexample :
    80000 < estimatedTokens (assembleContext true [bigDoc]).1 := by
  have hA : bigA.length = 400000 := List.length_replicate 400000 'a'
  have hest : estimatedTokens (formatContext [bigDoc]) = 800036 / 7 := by
    rw [estimatedTokens, big_context_length]; norm_num
  have hsum : ((List.map (fun d => (d.text.length : ℚ)) [bigDoc]).sum) = 400000 := by
    simp only [List.map, List.sum_cons, List.sum_nil,
      show bigDoc.text = bigA from rfl, hA]
    norm_num
  have e80 : (if (true : Bool) then (80000 : ℚ) else 100000) = 80000 := rfl
  have e30 : (if (true : Bool) then (30 : ℕ) else 50) = 30 := rfl
  have hassemble : assembleContext true [bigDoc] = (formatContext [bigDoc], [bigDoc]) := by
    unfold assembleContext
    simp only [e80, e30, hsum, List.length_cons, List.length_nil]
    rw [if_pos (by rw [hest]; norm_num), if_pos (by norm_num), if_neg (by norm_num)]
  rw [hassemble, hest]
  norm_num

/-- Claim C3 as amended: the budget check never truncates an individual
chunk's text — the document list it returns is always a prefix of the
ordered candidate list (whole chunks dropped from the end, if any), and
the rendered context is exactly the renderer applied to that list (the
estimate is recomputed on the re-rendered context); the estimated token
count, however, is not guaranteed to stay under the ceiling (see the
counterexample: the cut keeps at least 10 chunks and sizes the cut by
the average raw chunk length). -/
theorem assemble_drops_whole_chunks_only (evalMode : Bool) (docs : List RDoc) :
    ∃ n, (assembleContext evalMode docs).2 = docs.take n ∧
      (assembleContext evalMode docs).1 = formatContext ((assembleContext evalMode docs).2) := by
  unfold assembleContext
  simp only [gt_iff_lt]
  repeat' split
  all_goals first
    | exact ⟨_, rfl, rfl⟩
    | exact ⟨docs.length, (List.take_length docs).symm, rfl⟩

/-! ## Claims C1/C10: citation round-trip lemmas -/

/-- Every entry of `enumFromN n l` carries an index in `[n, n + |l|)`. -/
theorem enumFromN_bounds : ∀ (l : List α) (n : Nat) (p : Nat × α),
    p ∈ enumFromN n l → n ≤ p.1 ∧ p.1 < n + l.length
  | [], _, _, h => by cases h
  | a :: l, n, p, h => by
    cases h with
    | head => simp
    | tail _ h =>
      have := enumFromN_bounds l (n + 1) p h
      constructor
      · omega
      · simp only [List.length_cons]
        omega

/-- Below the starting index, the filtered sources contain no entry
numbered `k`. -/
theorem cited_filter_below : ∀ (l : List RDoc) (n k : Nat) (nums : List Nat), k < n →
    (((enumFromN n l).filterMap fun p =>
        if p.1 ∈ nums then some (mkCited p.1 p.2) else none).filter
      fun s => decide (s.sourceNumber = some k)) = []
  | [], _, _, _, _ => rfl
  | a :: l, n, k, nums, hk => by
    simp only [enumFromN, List.filterMap_cons]
    by_cases hm : n ∈ nums
    · simp only [if_pos hm, List.filter_cons]
      rw [if_neg (by simp only [mkCited, decide_eq_true_eq, Option.some.injEq]; omega)]
      exact cited_filter_below l (n + 1) k nums (Nat.lt_succ_of_lt hk)
    · simp only [if_neg hm]
      exact cited_filter_below l (n + 1) k nums (Nat.lt_succ_of_lt hk)

/-- The filtered sources contain exactly one entry numbered `k` when
`k` is referenced and in range: the one built from the document at
position `k` (0-based offset `k - n`). -/
theorem cited_filter_at : ∀ (l : List RDoc) (n k : Nat) (nums : List Nat),
    k ∈ nums → n ≤ k → k < n + l.length →
    (((enumFromN n l).filterMap fun p =>
        if p.1 ∈ nums then some (mkCited p.1 p.2) else none).filter
      fun s => decide (s.sourceNumber = some k)) = [mkCited k (l.getD (k - n) emptyRDoc)]
  | [], n, k, _, _, hnk, hlt => by
    simp only [List.length_nil] at hlt
    omega
  | a :: l, n, k, nums, hk, hnk, hlt => by
    by_cases h : n = k
    · subst h
      simp only [enumFromN, List.filterMap_cons, if_pos hk, List.filter_cons]
      rw [if_pos (by simp only [mkCited, decide_eq_true_eq])]
      rw [cited_filter_below l (n + 1) n nums (Nat.lt_succ_self n)]
      simp
    · have hnk' : n < k := lt_of_le_of_ne hnk h
      have hrec := cited_filter_at l (n + 1) k nums hk hnk'
        (by simp only [List.length_cons] at hlt; omega)
      have hgetD : (a :: l).getD (k - n) emptyRDoc = l.getD (k - (n + 1)) emptyRDoc := by
        have : k - n = (k - (n + 1)) + 1 := by omega
        rw [this]
        rfl
      simp only [enumFromN, List.filterMap_cons]
      by_cases hm : n ∈ nums
      · simp only [if_pos hm, List.filter_cons]
        rw [if_neg (by simp only [mkCited, decide_eq_true_eq, Option.some.injEq]; omega)]
        rw [hrec, hgetD]
      · simp only [if_neg hm]
        rw [hrec, hgetD]

/-- Every filtered source is `mkCited i d` for an in-range position
`i`. -/
theorem cited_mem_shape : ∀ (l : List RDoc) (n : Nat) (nums : List Nat) (s : CitedSource),
    s ∈ ((enumFromN n l).filterMap fun p =>
        if p.1 ∈ nums then some (mkCited p.1 p.2) else none) →
    ∃ i d, s = mkCited i d ∧ n ≤ i ∧ i < n + l.length
  | [], _, _, _, h => by cases h
  | a :: l, n, nums, s, h => by
    simp only [enumFromN, List.filterMap_cons] at h
    by_cases hm : n ∈ nums
    · rw [if_pos hm] at h
      cases h with
      | head => exact ⟨n, a, rfl, le_refl n, by simp⟩
      | tail _ h =>
        obtain ⟨i, d, rfl, h1, h2⟩ := cited_mem_shape l (n + 1) nums _ h
        exact ⟨i, d, rfl, by omega, by simp only [List.length_cons]; omega⟩
    · rw [if_neg hm] at h
      obtain ⟨i, d, rfl, h1, h2⟩ := cited_mem_shape l (n + 1) nums _ h
      exact ⟨i, d, rfl, by omega, by simp only [List.length_cons]; omega⟩

/-- When the answer references at least one source number, the resolved
sources are the position-filtered entries (`chain.py:864-883`). -/
theorem resolveSources_of_cited (answer : String) (docs : List RDoc)
    (h : (sourceNumbers answer).isEmpty = false) :
    resolveSources answer docs =
      (enumFromN 1 docs).filterMap fun p =>
        if p.1 ∈ sourceNumbers answer then some (mkCited p.1 p.2) else none := by
  unfold resolveSources
  simp only [h, Bool.false_eq_true, if_false]

/-- Claim C1: citation round-trip.  If the generated answer contains a
citation of source number `k` (as parsed by `chain.py:851-861`), then
for `1 ≤ k ≤ N` the resolved sources contain exactly one entry numbered
`k`, built from the document at position `k` of the ordered list used
for rendering (its `source_number` preserved); a referenced `k` outside
`[1, N]` contributes no entry at all. -/
theorem citation_roundtrip (answer : String) (docs : List RDoc) (k : Nat)
    (hk : k ∈ sourceNumbers answer) :
    (1 ≤ k → k ≤ docs.length →
      ((resolveSources answer docs).filter fun s => decide (s.sourceNumber = some k)) =
        [mkCited k (docs.getD (k - 1) emptyRDoc)]) ∧
    (k = 0 ∨ docs.length < k →
      ∀ s ∈ resolveSources answer docs, s.sourceNumber ≠ some k) := by
  have hne : (sourceNumbers answer).isEmpty = false := by
    cases h : sourceNumbers answer with
    | nil => rw [h] at hk; cases hk
    | cons a l => rfl
  rw [resolveSources_of_cited answer docs hne]
  constructor
  · intro h1 h2
    exact cited_filter_at docs 1 k (sourceNumbers answer) hk h1
      (by omega)
  · intro hout s hs
    obtain ⟨i, d, rfl, hi1, hi2⟩ := cited_mem_shape docs 1 (sourceNumbers answer) s hs
    simp only [mkCited, ne_eq, Option.some.injEq]
    omega

/-- Concrete documents used by witnesses. -/
def wDoc1 : RDoc := ⟨"id1", "text one", {}, some (1/4), 3/4⟩

/-- Concrete documents used by witnesses. -/
def wDoc2 : RDoc := ⟨"id2", "text two", ⟨"f.pdf", some 5, some 2⟩, some (1/2), 1/2⟩

/-- Concrete documents used by witnesses. -/
def wDoc3 : RDoc := ⟨"id3", "text three", {}, none, 9/10⟩

/-- Witness for C1: a three-entry context, answer citing source 2
resolves to exactly the second document; a cited source 9 contributes
nothing. -/
theorem citation_roundtrip_witness :
    ((resolveSources "Die Werte stammen aus Quelle 2." [wDoc1, wDoc2, wDoc3]).filter
        fun s => decide (s.sourceNumber = some 2)) = [mkCited 2 wDoc2] ∧
    (∀ s ∈ resolveSources "Siehe Quelle 9." [wDoc1, wDoc2, wDoc3],
      s.sourceNumber ≠ some 9) :=
  ⟨(citation_roundtrip "Die Werte stammen aus Quelle 2." [wDoc1, wDoc2, wDoc3] 2
      (by decide)).1 (by decide) (by decide),
   fun s hs => (citation_roundtrip "Siehe Quelle 9." [wDoc1, wDoc2, wDoc3] 9
      (by decide)).2 (Or.inr (by decide)) s hs⟩

/-- Claim C10: if the answer contains citation markers but every
referenced number exceeds the context length, the returned sources list
is empty — the similarity fallback is not applied because it triggers
only for an empty citation set (`chain.py:864-898`) — while the result
still carries the answer text. -/
theorem all_citations_out_of_range_empty_sources (answer : String) (docs : List RDoc)
    (h1 : sourceNumbers answer ≠ [])
    (h2 : ∀ k ∈ sourceNumbers answer, docs.length < k) :
    (answerStage answer docs).sources = [] ∧ (answerStage answer docs).answer = answer := by
  constructor
  · show resolveSources answer docs = []
    have hne : (sourceNumbers answer).isEmpty = false := by
      cases h : sourceNumbers answer with
      | nil => exact absurd h h1
      | cons a l => rfl
    rw [resolveSources_of_cited answer docs hne]
    rw [List.filterMap_eq_nil_iff]
    intro p hp
    have hb := enumFromN_bounds docs 1 p hp
    rw [if_neg]
    intro hmem
    have := h2 p.1 hmem
    omega
  · rfl

/-- Witness for C10: one document, answer citing only source 5. -/
theorem all_citations_out_of_range_witness :
    (answerStage "Siehe Quelle 5." [wDoc1]).sources = [] ∧
      (answerStage "Siehe Quelle 5." [wDoc1]).answer = "Siehe Quelle 5." :=
  all_citations_out_of_range_empty_sources "Siehe Quelle 5." [wDoc1]
    (by decide) (by decide)

/-! ## Claim C5: no-citation fallback -/

/-- When the answer contains no citation marker, the resolved sources
are the 10 highest-similarity documents (`chain.py:884-898`). -/
theorem resolveSources_of_uncited (answer : String) (docs : List RDoc)
    (h : sourceNumbers answer = []) :
    resolveSources answer docs =
      ((docs.insertionSort simDescRel).take 10).map mkFallback := by
  unfold resolveSources
  rw [h]
  rfl

/-- Claim C5: for an answer with zero recognizable citation markers and
a non-empty ordered candidate list of `N` documents, the returned
sources list is non-empty, has length `min 10 N`, is ordered by
descending similarity, and consists of the first `min 10 N` entries of a
descending-similarity (stable) reordering of the candidate list. -/
theorem no_citation_fallback (answer : String) (docs : List RDoc)
    (h1 : sourceNumbers answer = []) (h2 : docs ≠ []) :
    resolveSources answer docs ≠ [] ∧
      (resolveSources answer docs).length = min 10 docs.length ∧
      (resolveSources answer docs).Pairwise (fun a b => b.similarity ≤ a.similarity) ∧
      ∃ ds : List RDoc, ds.Perm docs ∧ ds.Pairwise simDescRel ∧
        resolveSources answer docs = (ds.take 10).map mkFallback := by
  have hres := resolveSources_of_uncited answer docs h1
  have hperm : (docs.insertionSort simDescRel).Perm docs :=
    List.perm_insertionSort simDescRel docs
  have hsorted : (docs.insertionSort simDescRel).Pairwise simDescRel :=
    List.sorted_insertionSort simDescRel docs
  have hlen : (resolveSources answer docs).length = min 10 docs.length := by
    rw [hres]
    simp [List.length_take, hperm.length_eq]
  refine ⟨?_, hlen, ?_, docs.insertionSort simDescRel, hperm, hsorted, hres⟩
  · intro hcon
    rw [hcon] at hlen
    have hpos : 0 < docs.length := List.length_pos.mpr h2
    simp only [List.length_nil] at hlen
    omega
  · rw [hres]
    rw [List.pairwise_map]
    exact hsorted.sublist (List.take_sublist 10 (docs.insertionSort simDescRel))

/-- Witness for C5: an uncited answer over a two-document context yields
a non-empty fallback source list. -/
theorem no_citation_fallback_witness :
    resolveSources "Dazu liegen keine Angaben vor." [wDoc1, wDoc3] ≠ [] :=
  (no_citation_fallback "Dazu liegen keine Angaben vor." [wDoc1, wDoc3]
    (by decide) (by decide)).1

/-! ## Claim C2: product/generation filtering -/

/-- Any candidate that survives the per-result filter has no conflicting
foreign model/generation pair in the sense of `retriever.py:409-418`:
the `continue` at `retriever.py:415-418` runs before every acceptance
branch. -/
theorem processResult_no_conflict (queryLower : String) (isSpec : Bool) (p : String)
    (g : Nat) (fileNameOf : Nat → String) (r : RawResult) (d : RDoc)
    (h : processResult queryLower isSpec (some p) (some g) fileNameOf r = some d) :
    hasConflictingModel (pyLower d.text) (pyLower p) g = false := by
  simp only [processResult] at h
  split at h
  · simp at h
  · split at h
    · split at h
      · simp at h
      · rename_i hconf
        have hcf : hasConflictingModel (pyLower r.document) (pyLower p) g = false := by
          simpa using hconf
        repeat' split at h
        all_goals first
          | (rw [Option.some.injEq] at h; subst h; exact hcf)
          | simp at h
    · simp at h

/-- Claim C2 as amended: when the query names a target product model and
generation, every candidate in the retrieve output is free of the
*code's* conflict condition — no chunk survives that mentions a foreign
model code while the *first* generation number appearing anywhere in its
text differs from the target generation.  (The code pairs every foreign
model mention with the chunk's first generation mention —
`retriever.py:397-418` — not with the generation written next to that
model; see the counterexample for the stronger original claim.) -/
theorem conflicting_model_chunks_excluded (query : String) (results : List RawResult)
    (fileNameOf : Nat → String) (p : String) (g : Nat)
    (hp : targetProductOf query = some p) (hg : targetGenOf query = some g) :
    ∀ d ∈ retrieveBody query results fileNameOf,
      hasConflictingModel (pyLower d.text) (pyLower p) g = false := by
  intro d hd
  have hmem : d ∈ results.filterMap
      (processResult (pyLower query) (isSpecQueryOf (pyLower query))
        (targetProductOf query) (targetGenOf query) fileNameOf) := by
    simp only [retrieveBody] at hd
    split at hd
    · exact (List.perm_insertionSort _ _).mem_iff.mp hd
    · exact hd
  obtain ⟨r, _, hsome⟩ := List.mem_filterMap.mp hmem
  rw [hp, hg] at hsome
  exact processResult_no_conflict (pyLower query) (isSpecQueryOf (pyLower query))
    p g fileNameOf r d hsome

/-- A spec query naming ThinkPad E14 Gen 2. -/
def cxQuery : String := "wieviel ram hat das thinkpad e14 gen 2?"

/-- A chunk that names the target pair E14 Gen 2 *and* the foreign pair
L16 Gen 3. -/
def cxText : String := "thinkpad e14 gen 2 ram 16gb ddr4. thinkpad l16 gen 3 ram 8gb."

/-- The raw vector-store result carrying `cxText`. -/
def cxResult : RawResult := ⟨"cx", cxText, {}, some (1/2)⟩

/-- Counterexample to claim C2 as stated: for the query targeting
"e14 gen 2", a candidate whose text explicitly mentions the different
product "l16" paired with the different generation "gen 3" (the literal
substring `"l16 gen 3"`) *is* in the retrieve output.  The conflict
test compares each foreign model against the *first* generation number
in the chunk (here `2`, which matches the target), so the `l16`/`gen 3`
pairing never triggers the exclusion. -/
theorem product_filter_counterexample :
    (∃ d ∈ retrieveBody cxQuery [cxResult] (fun _ => ""),
        pyContains (pyLower d.text) "l16 gen 3" = true) ∧
      targetProductOf cxQuery = some "e14" ∧ targetGenOf cxQuery = some 2 := by
  with_unfolding_all decide

/-- A clean candidate naming only the target product/generation. -/
def wResultA : RawResult := ⟨"ca", "thinkpad e14 gen 2 ram 16gb ddr4", {}, some (1/2)⟩

/-- A candidate naming only the foreign pair L16 Gen 3. -/
def wResultB : RawResult := ⟨"cb", "thinkpad l16 gen 3 battery 57wh", {}, some (1/4)⟩

/-- Witness for the amended C2: on a concrete E14 Gen 2 query with one
matching and one conflicting candidate, every returned document is
conflict-free; concretely, the chunk naming only "l16 gen 3" is
excluded from the output. -/
theorem conflicting_model_chunks_excluded_witness :
    (∀ d ∈ retrieveBody cxQuery [wResultA, wResultB] (fun _ => ""),
        hasConflictingModel (pyLower d.text) (pyLower "e14") 2 = false) ∧
      (∀ d ∈ retrieveBody cxQuery [wResultA, wResultB] (fun _ => ""), d.id ≠ "cb") :=
  ⟨conflicting_model_chunks_excluded cxQuery [wResultA, wResultB] (fun _ => "") "e14" 2
      (by with_unfolding_all decide) (by with_unfolding_all decide),
   by with_unfolding_all decide⟩

/-! ## Claim C8: `Embedder.embed_text` (`embedder.py:22-24`) -/

/-- `Embedder.embed_text` (`embedder.py:22-24`):
`return self.model.encode(text, convert_to_numpy=True).tolist()`.
The wrapped sentence-transformer model is an external service (spec §6:
`embed(text) -> vector[D]`), here the parameter `encode`; its values —
including its value on the empty string — are floating-point outputs of
an external neural network and are not determined by any code in this
repository. -/
def embed_text (encode : String → List ℚ) (text : String) : List ℚ :=
  encode text

/-- `embed_text` is pure delegation: the source has no empty-string
branch (nor any other branch), so its behaviour on `""` — zero vector,
non-zero vector, or an exception inside the model — is exactly the
external model's behaviour, about which the repository's code fixes
nothing. -/
theorem embed_text_is_delegation (encode : String → List ℚ) (text : String) :
    embed_text encode text = encode text := rfl
